import Mathlib

/-!
Verification of the strategy-coordination layer of the Trading-bot repository.

The definitions below are a shallow embedding of the Python sources:
  * `src/src/advanced/oco.py`   — `OCOOrderHandler`
  * `src/src/advanced/twap.py`  — `TWAPOrderHandler`
  * `src/src/advanced/grid.py`  — `GridOrderHandler`
  * `src/src/market_orders.py`  — `MarketOrderHandler`
  * `src/src/order_result.py`   — `OrderResult`

Python floats are modelled by `ℚ`, Python ints by `Int`/`Nat`, raised
exceptions by `Except PyError`.  External collaborators (the exchange
gateway and the injected order handlers) are modelled as function
parameters, mirroring the constructor injection in the source.  Wall-clock
fields (`datetime.now()`, `time.sleep`) are omitted: no claim mentions
them.  Daemon threads are modelled by running the thread body as a
sequential function over an explicit schedule of the observations and
external writes it can see at its poll boundaries.
-/

set_option maxHeartbeats 1000000

namespace TradingBot

/-- Order side, `side.upper()` in the source; the CLI only ever passes
`"BUY"` or `"SELL"`. -/
inductive Side
  | BUY
  | SELL
deriving DecidableEq, Repr

/-- Python exceptions that the embedded code can raise. -/
inductive PyError
  | valueError (msg : String)
  | zeroDivisionError
  | gatewayError (msg : String)
deriving DecidableEq, Repr

/-- Human-readable text of an exception, `str(e)` in the source. -/
def PyError.text : PyError → String
  | .valueError m => m
  | .zeroDivisionError => "division by zero"
  | .gatewayError m => m

/-- Embeds the `OrderResult` dataclass of `src/src/order_result.py`
(the `timestamp : datetime` field is omitted: wall-clock time is outside
the embedding and no claim mentions it). -/
structure OrderResult where
  order_id : Nat
  symbol : String
  side : Side
  quantity : ℚ
  price : Option ℚ
  status : String
  order_type : String
deriving DecidableEq, Repr

/-! ## OCO coordinator — `src/src/advanced/oco.py` -/

/-- The registry value built by `OCOOrderHandler.place_oco_order`
(`timestamp` omitted as above). -/
structure OcoData where
  id : String
  symbol : String
  limit_order : OrderResult
  stop_order : OrderResult
  status : String
deriving DecidableEq, Repr

/-- One order-placement call issued to the injected
`limit_order_handler`; each such call reaches the exchange gateway. -/
inductive LegCall
  | limitLeg (symbol : String) (side : Side) (quantity price : ℚ)
  | stopLeg (symbol : String) (side : Side) (quantity price stopPrice : ℚ)
deriving DecidableEq, Repr

/-- Embeds `OCOOrderHandler.place_oco_order` (oco.py lines 14–40).
The injected `limit_order_handler`'s two placement methods are the
function parameters `placeOrder` and `placeStopLimitOrder` (each may
raise).  The source performs NO validation of `limit_price` against
`stop_price`: it immediately places the limit leg, then the stop leg
(argument order as in the source: `price := stop_limit_price`,
`stop := stop_price`), then registers the pair with status `ACTIVE`.
The second component of the result is the list of leg-placement calls
issued, in order. -/
def place_oco_order
    (placeOrder : String → Side → ℚ → ℚ → Except PyError OrderResult)
    (placeStopLimitOrder : String → Side → ℚ → ℚ → ℚ → Except PyError OrderResult)
    (ocoId : String) (symbol : String) (side : Side)
    (quantity limit_price stop_price stop_limit_price : ℚ) :
    Except PyError OcoData × List LegCall :=
  match placeOrder symbol side quantity limit_price with
  | .error e => (.error e, [.limitLeg symbol side quantity limit_price])
  | .ok limit_order =>
    match placeStopLimitOrder symbol side quantity stop_limit_price stop_price with
    | .error e =>
        (.error e,
         [.limitLeg symbol side quantity limit_price,
          .stopLeg symbol side quantity stop_limit_price stop_price])
    | .ok stop_order =>
        (.ok { id := ocoId, symbol := symbol, limit_order := limit_order,
               stop_order := stop_order, status := "ACTIVE" },
         [.limitLeg symbol side quantity limit_price,
          .stopLeg symbol side quantity stop_limit_price stop_price])

/-- One iteration's worth of input to the OCO monitoring loop: either the
two `futures_get_order` answers for the limit and the stop leg, or an
exception raised by either query. -/
inductive OcoPoll
  | ok (limitStatus stopStatus : String)
  | queryError
deriving DecidableEq, Repr

/-- The fields of the pair that `_monitor_oco` mutates, together with the
trace of `cancel_order` calls it issues (by order id). -/
structure OcoRun where
  status : String
  cancels : List Nat
deriving DecidableEq, Repr

/-- Embeds the `_monitor_oco` loop (oco.py lines 45–68) run over a finite
schedule of poll observations.  While the pair is `ACTIVE`, each
iteration queries both legs: if the query raises, the error is logged and
the loop breaks; if the limit leg reports `FILLED`, the stop leg is
cancelled and the pair becomes `LIMIT_FILLED` (and the loop breaks);
otherwise if the stop leg reports `FILLED`, the limit leg is cancelled
and the pair becomes `STOP_FILLED`.  An empty schedule means the loop is
still polling. -/
def monitor_oco (limitId stopId : Nat) : List OcoPoll → OcoRun → OcoRun
  | [], st => st
  | p :: rest, st =>
    if st.status = "ACTIVE" then
      match p with
      | .queryError => st
      | .ok ls ss =>
        if ls = "FILLED" then
          { status := "LIMIT_FILLED", cancels := st.cancels ++ [stopId] }
        else if ss = "FILLED" then
          { status := "STOP_FILLED", cancels := st.cancels ++ [limitId] }
        else monitor_oco limitId stopId rest st
    else st

/-! ## TWAP coordinator — `src/src/advanced/twap.py` -/

/-- Embeds the TWAP job dict built by `start_twap_order`
(`start_time` omitted). -/
structure TwapJob where
  id : String
  symbol : String
  side : Side
  total_quantity : ℚ
  parts : Int
  qty_per_part : ℚ
  interval_minutes : Int
  completed : Nat
  status : String
  orders : List OrderResult
deriving DecidableEq, Repr

/-- Embeds `TWAPOrderHandler.start_twap_order` (twap.py lines 13–40) up
to and including construction of the job.  The source validates only
`duration_minutes <= 0 or interval_minutes <= 0`; it then computes
`parts = duration_minutes // interval_minutes` (Python floor division)
and `qty_per_part = total_quantity / parts`, which raises
`ZeroDivisionError` when `parts == 0`.  The registration
`self.twap_jobs[job_id] = job` happens only after these lines, so an
error here means no job is ever registered. -/
def start_twap_order (jobId symbol : String) (side : Side)
    (total_quantity : ℚ) (duration_minutes interval_minutes : Int) :
    Except PyError TwapJob :=
  if duration_minutes ≤ 0 ∨ interval_minutes ≤ 0 then
    .error (.valueError "Duration and interval must be positive")
  else
    let parts := Int.fdiv duration_minutes interval_minutes
    if parts = 0 then
      .error .zeroDivisionError
    else
      .ok { id := jobId, symbol := symbol, side := side,
            total_quantity := total_quantity, parts := parts,
            qty_per_part := total_quantity / (parts : ℚ),
            interval_minutes := interval_minutes,
            completed := 0, status := "RUNNING", orders := [] }

/-- The job fields that `_execute_twap` mutates. -/
structure TwapRun where
  completed : Nat
  status : String
  orders : List OrderResult
  error : Option String
deriving DecidableEq, Repr

/-- Embeds the `_execute_twap` loop body (twap.py lines 44–65) from slice
index `i` with `remaining` loop iterations left (`remaining = parts - i`;
the source iterates `for i in range(parts)`).
`cancelBefore i = true` models an external `cancel_twap_job` call whose
write of `CANCELLED` lands before the loop's status check at slice `i`
(cooperative cancellation at a slice boundary).  `place i` is slice `i`'s
`market_order_handler.place_order` outcome.
Faithful to the source, the assignment `job['status'] = 'COMPLETED'`
after the `for` loop runs on EVERY non-raising exit of the loop — both
when all slices were placed and when the loop exited via `break`; only a
raised placement error skips it and sets `FAILED` instead. -/
def execute_twap_from
    (place : Nat → Except PyError OrderResult)
    (cancelBefore : Nat → Bool) :
    Nat → Nat → TwapRun → TwapRun
  | _, 0, st => { st with status := "COMPLETED" }
  | i, remaining + 1, st =>
    let st1 := if cancelBefore i then { st with status := "CANCELLED" } else st
    if st1.status ≠ "RUNNING" then
      { st1 with status := "COMPLETED" }
    else
      match place i with
      | .error e => { st1 with status := "FAILED", error := some e.text }
      | .ok o =>
          execute_twap_from place cancelBefore (i + 1) remaining
            { st1 with completed := st1.completed + 1, orders := st1.orders ++ [o] }

/-- Embeds `_execute_twap` for a job with `parts` slices, starting from
its freshly registered state (`completed = 0`, status `RUNNING`). -/
def execute_twap (place : Nat → Except PyError OrderResult)
    (cancelBefore : Nat → Bool) (parts : Nat) : TwapRun :=
  execute_twap_from place cancelBefore 0 parts
    { completed := 0, status := "RUNNING", orders := [], error := none }

/-- Embeds `TWAPOrderHandler.cancel_twap_job` (twap.py lines 70–76),
given that the job id is registered, as a function of the job's current
status: only a `RUNNING` job is flipped to `CANCELLED` (returning
`true`); any other status is left unchanged (returning `false`). -/
def cancel_twap_job (status : String) : String × Bool :=
  if status = "RUNNING" then ("CANCELLED", true) else (status, false)

/-! ## Grid coordinator — `src/src/advanced/grid.py` -/

/-- Embeds the `GridLevel` dataclass (grid.py lines 8–14), with its
source defaults `order_id = None` and `status = 'PENDING'`. -/
structure GridLevel where
  price : ℚ
  quantity : ℚ
  side : Side
  order_id : Option Nat := none
  status : String := "PENDING"
deriving DecidableEq, Repr

/-- Embeds the strategy dict built by `create_grid_strategy`
(`created_time` omitted). -/
structure GridStrategy where
  id : String
  symbol : String
  grid_levels : List GridLevel
  status : String
  active_orders : Int
  total_trades : Nat
  profit_loss : ℚ
deriving DecidableEq, Repr

/-- Python truthiness of the `order_id` field (`int` or `None` in the
source): `None` and `0` are falsy, every other int is truthy. -/
def truthyId : Option Nat → Bool
  | none => false
  | some n => n != 0

/-- Number of levels whose status is `PLACED` (the data-model invariant
relates this to the `active_orders` counter). -/
def countPlaced (lvls : List GridLevel) : Nat :=
  lvls.countP (fun l => l.status == "PLACED")

/-- Every `PLACED` level carries a truthy order id (holds for all
strategies whose placements returned nonzero exchange order ids). -/
def placedTruthy (lvls : List GridLevel) : Prop :=
  ∀ l ∈ lvls, l.status = "PLACED" → truthyId l.order_id = true

/-- Embeds `GridOrderHandler.create_grid_strategy` (grid.py lines 23–57):
validates `grid_count ≥ 2` and `lower_price < upper_price`, computes
`price_step = (upper - lower) / (grid_count - 1)` and
`quantity_per_level = total_quantity / grid_count`, builds the levels at
`lower + i * price_step` with side `BUY` for `i < grid_count // 2` and
`SELL` otherwise, and registers the strategy in state `CREATED` with all
counters zero. -/
def create_grid_strategy (gridId symbol : String)
    (lower_price upper_price : ℚ) (grid_count : Nat) (total_quantity : ℚ) :
    Except PyError GridStrategy :=
  if grid_count < 2 then
    .error (.valueError "Grid count must be at least 2")
  else if lower_price ≥ upper_price then
    .error (.valueError "Lower price must be less than upper price")
  else
    let price_step := (upper_price - lower_price) / ((grid_count : ℚ) - 1)
    let quantity_per_level := total_quantity / (grid_count : ℚ)
    let grid_levels := (List.range grid_count).map fun (i : Nat) =>
      { price := lower_price + (i : ℚ) * price_step,
        quantity := quantity_per_level,
        side := if i < grid_count / 2 then Side.BUY else Side.SELL : GridLevel }
    .ok { id := gridId, symbol := symbol, grid_levels := grid_levels,
          status := "CREATED", active_orders := 0, total_trades := 0,
          profit_loss := 0 }

/-- The placement-policy test of `start_grid_strategy` (grid.py lines
67–68): a level is placed iff it is not yet crossable at the current
price — a `BUY` level strictly below it or a `SELL` level strictly above
it. -/
def shouldPlaceLevel (l : GridLevel) (current_price : ℚ) : Bool :=
  (l.side == Side.BUY && decide (l.price < current_price)) ||
  (l.side == Side.SELL && decide (current_price < l.price))

/-- Embeds the level loop of `start_grid_strategy` (grid.py lines 66–79).
`place side quantity price` is the outcome of the injected
`limit_order_handler.place_order` call for a level with those attributes:
`some oid` means it returned an `OrderResult` with that order id, `none`
means it raised (the `except` clause logs and moves on, leaving the level
untouched).  Returns the updated levels and the number of
`active_orders += 1` increments performed. -/
def startLevels (place : Side → ℚ → ℚ → Option Nat) (current_price : ℚ) :
    List GridLevel → List GridLevel × Int
  | [] => ([], 0)
  | l :: rest =>
    let tail := startLevels place current_price rest
    if shouldPlaceLevel l current_price then
      match place l.side l.quantity l.price with
      | some oid =>
          ({ l with order_id := some oid, status := "PLACED" } :: tail.1, tail.2 + 1)
      | none => (l :: tail.1, tail.2)
    else (l :: tail.1, tail.2)

/-- The per-level outcome of the `start_grid_strategy` loop, as one pure
function of the level. -/
def startLevelFun (place : Side → ℚ → ℚ → Option Nat) (current_price : ℚ)
    (l : GridLevel) : GridLevel :=
  if shouldPlaceLevel l current_price then
    match place l.side l.quantity l.price with
    | some oid => { l with order_id := some oid, status := "PLACED" }
    | none => l
  else l

/-- Embeds `GridOrderHandler.start_grid_strategy` (grid.py lines 59–83)
for a registered strategy: fetches the current price (here a parameter),
runs the placement loop over the levels, sets status `RUNNING`, starts
the monitoring task and returns `True`. -/
def start_grid_strategy (place : Side → ℚ → ℚ → Option Nat)
    (current_price : ℚ) (s : GridStrategy) : GridStrategy × Bool :=
  let r := startLevels place current_price s.grid_levels
  ({ s with
     grid_levels := r.1
     active_orders := s.active_orders + r.2
     status := "RUNNING" }, true)

/-- The strategy fields mutated by one pass of the `_monitor_grid` inner
`for` loop, as deltas. -/
structure MonitorDelta where
  levels : List GridLevel
  activeDelta : Int
  trades : Nat
  pl : ℚ
deriving DecidableEq, Repr

/-- Embeds one pass of the inner `for` loop of `_monitor_grid` (grid.py
lines 92–107).  `getStatus oid` is the `futures_get_order` answer for
order `oid` (its `'status'` field), or an exception.  For every level
with `status == 'PLACED' and level.order_id` (Python truthiness), the
order status is queried; on `FILLED` the level is marked `FILLED`,
`active_orders` is decremented, `total_trades` incremented, and
`quantity * price` is added to (`SELL`) or subtracted from (`BUY`) the
profit/loss.  A raised query error is caught by the surrounding `try`:
the loop breaks, leaving the remaining levels untouched. -/
def monitorPass (getStatus : Nat → Except PyError String) :
    List GridLevel → MonitorDelta
  | [] => { levels := [], activeDelta := 0, trades := 0, pl := 0 }
  | l :: rest =>
    if l.status == "PLACED" && truthyId l.order_id then
      match getStatus (l.order_id.getD 0) with
      | .error _ => { levels := l :: rest, activeDelta := 0, trades := 0, pl := 0 }
      | .ok os =>
        let d := monitorPass getStatus rest
        if os == "FILLED" then
          { levels := { l with status := "FILLED" } :: d.levels,
            activeDelta := d.activeDelta - 1,
            trades := d.trades + 1,
            pl := d.pl + (if l.side == Side.SELL then l.quantity * l.price
                          else -(l.quantity * l.price)) }
        else
          { levels := l :: d.levels, activeDelta := d.activeDelta,
            trades := d.trades, pl := d.pl }
    else
      let d := monitorPass getStatus rest
      { levels := l :: d.levels, activeDelta := d.activeDelta,
        trades := d.trades, pl := d.pl }

/-- One monitoring step of `_monitor_grid` applied to the whole
strategy. -/
def monitor_grid_step (getStatus : Nat → Except PyError String)
    (s : GridStrategy) : GridStrategy :=
  let d := monitorPass getStatus s.grid_levels
  { s with
    grid_levels := d.levels
    active_orders := s.active_orders + d.activeDelta
    total_trades := s.total_trades + d.trades
    profit_loss := s.profit_loss + d.pl }

/-- Embeds the cancellation loop of `stop_grid_strategy` (grid.py lines
122–126): every level with `status == 'PLACED' and level.order_id` gets
a `cancel_order` call (best-effort — `cancel_order` catches every
exception and returns a bool, which the source ignores) and is marked
`CANCELLED`; every other level is left untouched. -/
def stopLevels : List GridLevel → List GridLevel
  | [] => []
  | l :: rest =>
    if l.status == "PLACED" && truthyId l.order_id then
      { l with status := "CANCELLED" } :: stopLevels rest
    else l :: stopLevels rest

/-- Embeds `GridOrderHandler.stop_grid_strategy` (grid.py lines 116–130)
for a registered strategy: cancels the placed levels, sets status
`STOPPED`, zeroes `active_orders` and returns `True`.  No statement in it
can raise. -/
def stop_grid_strategy (s : GridStrategy) : GridStrategy × Bool :=
  ({ s with
     grid_levels := stopLevels s.grid_levels
     status := "STOPPED"
     active_orders := 0 }, true)

/-! ## Market orders — `src/src/market_orders.py` -/

/-- The fields of the `futures_get_order` answer that
`MarketOrderHandler.place_order` reads.  `avgPrice`/`price` are `none`
when the corresponding key is absent from the gateway's reply
(`order_details.get(..., 0)` then yields the default `0`). -/
structure OrderDetails where
  orderId : Nat
  symbol : String
  side : Side
  origQty : ℚ
  avgPrice : Option ℚ
  price : Option ℚ
  status : String
deriving DecidableEq, Repr

/-- Embeds the execution-price extraction of
`MarketOrderHandler.place_order` (market_orders.py lines 39–42):
`execution_price = float(order_details.get('avgPrice', 0))`, and if that
is `0`, `execution_price = float(order_details.get('price', 0))`. -/
def marketExecutionPrice (od : OrderDetails) : ℚ :=
  let a := od.avgPrice.getD 0
  if a = 0 then od.price.getD 0 else a

/-- Embeds the `OrderResult` returned by `MarketOrderHandler.place_order`
(market_orders.py lines 55–63) from the follow-up status query's fields:
the `price` field is always `some execution_price` — the source never
stores `None` there. -/
def market_place_order_result (od : OrderDetails) : OrderResult :=
  { order_id := od.orderId, symbol := od.symbol, side := od.side,
    quantity := od.origQty, price := some (marketExecutionPrice od),
    status := od.status, order_type := "MARKET" }

/-- Whether a fallible computation succeeded. -/
def exceptOk {ε α : Type _} : Except ε α → Bool
  | .ok _ => true
  | .error _ => false

/-- The levels of a successfully created strategy (empty on error). -/
def gridLevelsOf : Except PyError GridStrategy → List GridLevel
  | .ok s => s.grid_levels
  | .error _ => []

/-- A successfully created strategy (an inert empty record on error). -/
def gridStrategyOf : Except PyError GridStrategy → GridStrategy
  | .ok s => s
  | .error _ =>
      { id := "", symbol := "", grid_levels := [], status := "",
        active_orders := 0, total_trades := 0, profit_loss := 0 }

/-! ## Sample data used by concrete theorems -/

/-- A sample filled market order, used as a gateway reply in concrete
runs. -/
def sampleOrder : OrderResult :=
  { order_id := 1, symbol := "BTCUSDT", side := .BUY, quantity := 1,
    price := some 100, status := "FILLED", order_type := "MARKET" }

/-- A limit-leg placer that always succeeds (models a gateway that
accepts the order). -/
def okLimitLeg : String → Side → ℚ → ℚ → Except PyError OrderResult :=
  fun sym sd q p =>
    .ok { order_id := 11, symbol := sym, side := sd, quantity := q,
          price := some p, status := "NEW", order_type := "LIMIT" }

/-- A stop-leg placer that always succeeds. -/
def okStopLeg : String → Side → ℚ → ℚ → ℚ → Except PyError OrderResult :=
  fun sym sd q p _sp =>
    .ok { order_id := 12, symbol := sym, side := sd, quantity := q,
          price := some p, status := "NEW", order_type := "STOP_LIMIT" }

/-- A `futures_get_order` reply with neither an `avgPrice` nor a `price`
field (so both `order_details.get(..., 0)` calls yield the default). -/
def pendingDetails : OrderDetails :=
  { orderId := 7, symbol := "BTCUSDT", side := .BUY, origQty := 1,
    avgPrice := none, price := none, status := "NEW" }

/-- A `futures_get_order` reply carrying a realized average price. -/
def filledDetails : OrderDetails :=
  { orderId := 8, symbol := "BTCUSDT", side := .SELL, origQty := 2,
    avgPrice := some 101, price := some 100, status := "FILLED" }

/-- A freshly created two-level grid strategy (one BUY level at 100, one
SELL level at 110). -/
def sampleCreatedStrategy : GridStrategy :=
  { id := "GRID_1", symbol := "BTCUSDT",
    grid_levels := [{ price := 100, quantity := 1, side := Side.BUY },
                    { price := 110, quantity := 1, side := Side.SELL }],
    status := "CREATED", active_orders := 0, total_trades := 0,
    profit_loss := 0 }

/-- A stopped grid strategy (its one placed level already cancelled). -/
def stoppedStrategy : GridStrategy :=
  { id := "GRID_2", symbol := "BTCUSDT",
    grid_levels := [{ price := 100, quantity := 1, side := Side.BUY,
                      order_id := some 5, status := "CANCELLED" }],
    status := "STOPPED", active_orders := 0, total_trades := 1,
    profit_loss := -100 }

/-! ## Claim theorems -/

/-- C1: the claim says `place_oco_order` rejects a request whose prices
violate the required ordering (for SELL, `limit_price` must exceed
`stop_trigger_price`) with a validation error before any order-placement
call is made.  The source performs no such validation: for the violating
SELL request with `limit_price = 104` and `stop_trigger_price = 105`,
(a) whatever the injected leg placers do, the very first effect is the
limit-leg placement call; (b) with accepting leg placers the request is
not rejected at all — it returns an ACTIVE pair; (c) the input does
violate the SELL ordering. -/
theorem oco_place_skips_price_validation :
    (∀ po ps, (place_oco_order po ps "OCO_1" "BTCUSDT" Side.SELL 1 104 105 105).2.head?
        = some (LegCall.limitLeg "BTCUSDT" Side.SELL 1 104)) ∧
    (place_oco_order okLimitLeg okStopLeg "OCO_1" "BTCUSDT" Side.SELL 1 104 105 105).1
        = .ok { id := "OCO_1", symbol := "BTCUSDT",
                limit_order := { order_id := 11, symbol := "BTCUSDT",
                                 side := Side.SELL, quantity := 1,
                                 price := some 104, status := "NEW",
                                 order_type := "LIMIT" },
                stop_order := { order_id := 12, symbol := "BTCUSDT",
                                side := Side.SELL, quantity := 1,
                                price := some 105, status := "NEW",
                                order_type := "STOP_LIMIT" },
                status := "ACTIVE" } ∧
    ¬ ((104 : ℚ) > 105) := by
  refine ⟨?_, rfl, by norm_num⟩
  intro po ps
  cases hpo : po "BTCUSDT" Side.SELL 1 104 with
  | error e => simp [place_oco_order, hpo]
  | ok o =>
    cases hps : ps "BTCUSDT" Side.SELL 1 105 105 with
    | error e => simp [place_oco_order, hpo, hps]
    | ok o2 => simp [place_oco_order, hpo, hps]

/-- C2: the claim says a TWAP start with `0 < duration < interval` is
rejected as a validation error and never propagates a division-by-zero
fault.  The source validates only positivity, then computes
`qty_per_part = total_quantity / (duration // interval)`, which raises
`ZeroDivisionError` for `duration = 1 < 2 = interval` — a runtime fault,
not the `ValueError` the claim requires (no job is registered either
way, since registration follows the raising line). -/
theorem twap_duration_below_interval_division_fault :
    start_twap_order "TWAP_1" "BTCUSDT" Side.BUY 9 1 2
      = .error .zeroDivisionError ∧
    ∀ m : String, (.error (.valueError m) : Except PyError TwapJob)
      ≠ .error .zeroDivisionError := by
  refine ⟨rfl, fun m h => ?_⟩
  cases h

/-- C3: the claim says a TWAP job whose status was flipped to
`CANCELLED` before a slice boundary stays `CANCELLED` and never becomes
`COMPLETED`.  In the source, `job['status'] = 'COMPLETED'` runs after
the `for` loop on every non-raising exit, including the `break` taken
when the cancellation is observed: for a 2-slice job cancelled before
slice 1, `cancel_twap_job` flips the status to `CANCELLED`, the
execution task breaks after 1 completed slice, yet the job ends
`COMPLETED`, not `CANCELLED`. -/
theorem twap_cancelled_job_ends_completed :
    cancel_twap_job "RUNNING" = ("CANCELLED", true) ∧
    execute_twap (fun _ => .ok sampleOrder) (fun i => i == 1) 2
      = { completed := 1, status := "COMPLETED", orders := [sampleOrder],
          error := none } ∧
    (execute_twap (fun _ => .ok sampleOrder) (fun i => i == 1) 2).status
      ≠ "CANCELLED" := by
  refine ⟨by decide, by decide, by decide⟩

/-- C4: for every schedule of poll observations, the OCO monitoring loop
started on an `ACTIVE` pair either is still `ACTIVE` having cancelled
nothing, or has observed exactly one leg fill: it then invoked cancel
exactly once, on the other leg, and set the matching terminal status
(`LIMIT_FILLED` cancels the stop leg, `STOP_FILLED` cancels the limit
leg) — so at most one leg is recorded as filled while the pair is
`ACTIVE`; moreover a pair in either terminal status absorbs every
further poll unchanged (the loop has stopped). -/
theorem oco_monitor_mutual_exclusion (limitId stopId : Nat)
    (polls : List OcoPoll) :
    (let r := monitor_oco limitId stopId polls
        { status := "ACTIVE", cancels := [] }
     (r.status = "ACTIVE" ∧ r.cancels = []) ∨
     (r.status = "LIMIT_FILLED" ∧ r.cancels = [stopId]) ∨
     (r.status = "STOP_FILLED" ∧ r.cancels = [limitId])) ∧
    (∀ (more : List OcoPoll) (c : List Nat),
      monitor_oco limitId stopId more { status := "LIMIT_FILLED", cancels := c }
        = { status := "LIMIT_FILLED", cancels := c } ∧
      monitor_oco limitId stopId more { status := "STOP_FILLED", cancels := c }
        = { status := "STOP_FILLED", cancels := c }) := by
  constructor
  · induction polls with
    | nil => exact Or.inl ⟨rfl, rfl⟩
    | cons p rest ih =>
      cases p with
      | queryError => exact Or.inl ⟨rfl, rfl⟩
      | ok ls ss =>
        by_cases hls : ls = "FILLED"
        · right; left
          simp [monitor_oco, hls]
        · by_cases hss : ss = "FILLED"
          · right; right
            simp [monitor_oco, hls, hss]
          · simpa [monitor_oco, hls, hss] using ih
  · intro more c
    cases more with
    | nil => exact ⟨rfl, rfl⟩
    | cons p rest => exact ⟨by simp [monitor_oco], by simp [monitor_oco]⟩

/-- C5: for every valid grid creation request (`2 ≤ level_count`,
`lower < upper`), `create_grid_strategy` succeeds and builds exactly
`level_count` levels, priced `lower + i*(upper-lower)/(count-1)` — a
strictly increasing sequence with `level[0] = lower` and
`level[count-1] = upper` (exactly, in exact rational arithmetic) —
where level `i` is `BUY` iff `i < count/2` (integer floor) and `SELL`
otherwise, and every level's quantity is `total_quantity / count`. -/
theorem grid_create_levels (gridId symbol : String) (lo hi : ℚ) (n : Nat)
    (qty : ℚ) (hn : 2 ≤ n) (hlo : lo < hi) :
    exceptOk (create_grid_strategy gridId symbol lo hi n qty) = true ∧
    (let lvls := gridLevelsOf (create_grid_strategy gridId symbol lo hi n qty)
     lvls.length = n ∧
     (lvls.map fun l => l.price)
        = ((List.range n).map fun (i : Nat) => lo + (i : ℚ) * ((hi - lo) / ((n : ℚ) - 1))) ∧
     List.Pairwise (· < ·) (lvls.map fun l => l.price) ∧
     (lvls.map fun l => l.price).get? 0 = some lo ∧
     (lvls.map fun l => l.price).get? (n - 1) = some hi ∧
     (lvls.map fun l => l.side)
        = ((List.range n).map fun i => if i < n / 2 then Side.BUY else Side.SELL) ∧
     ∀ l ∈ lvls, l.quantity = qty / (n : ℚ)) := by
  have h2 : ¬ n < 2 := not_lt.2 hn
  have h3 : ¬ lo ≥ hi := not_le.2 hlo
  have hcast : (2 : ℚ) ≤ (n : ℚ) := by exact_mod_cast hn
  have hne : ((n : ℚ) - 1) ≠ 0 := by linarith
  have hstep : 0 < (hi - lo) / ((n : ℚ) - 1) := by
    apply div_pos (sub_pos.2 hlo); linarith
  simp only [create_grid_strategy, if_neg h2, if_neg h3, gridLevelsOf, exceptOk]
  refine ⟨trivial, ?_, ?_, ?_, ?_, ?_, ?_, ?_⟩
  · simp
  · rw [List.map_map]; rfl
  · rw [List.map_map]
    exact (List.pairwise_lt_range n).map _
      (fun a b hab =>
        add_lt_add_left
          (mul_lt_mul_of_pos_right (by exact_mod_cast hab) hstep) lo)
  · rw [List.map_map, List.get?_map, List.get?_range (by omega : 0 < n)]
    simp
  · rw [List.map_map, List.get?_map, List.get?_range (by omega : n - 1 < n)]
    have : ((n - 1 : Nat) : ℚ) = (n : ℚ) - 1 := by
      rw [Nat.cast_sub (by omega : 1 ≤ n)]; norm_num
    simp only [Option.map_some', Function.comp]
    rw [this, mul_comm, div_mul_cancel₀ _ hne]
    norm_num
  · rw [List.map_map]; rfl
  · intro l hl
    rcases List.mem_map.1 hl with ⟨i, _, rfl⟩
    rfl

/-- Witness for C5 at Scenario A of the spec: a 6-level grid from 100 to
110 with total quantity 12. -/
theorem grid_create_levels_witness :
    (2 ≤ 6 ∧ (100 : ℚ) < 110) ∧
    (exceptOk (create_grid_strategy "G" "X" 100 110 6 12) = true ∧
     (let lvls := gridLevelsOf (create_grid_strategy "G" "X" 100 110 6 12)
      lvls.length = 6 ∧
      (lvls.map fun l => l.price)
        = ((List.range 6).map fun (i : Nat) =>
            (100 : ℚ) + (i : ℚ) * (((110 : ℚ) - 100) / ((6 : ℚ) - 1))) ∧
      List.Pairwise (· < ·) (lvls.map fun l => l.price) ∧
      (lvls.map fun l => l.price).get? 0 = some 100 ∧
      (lvls.map fun l => l.price).get? (6 - 1) = some 110 ∧
      (lvls.map fun l => l.side)
        = ((List.range 6).map fun i => if i < 6 / 2 then Side.BUY else Side.SELL) ∧
      ∀ l ∈ lvls, l.quantity = 12 / ((6 : Nat) : ℚ))) :=
  ⟨⟨by norm_num, by norm_num⟩,
   grid_create_levels "G" "X" 100 110 6 12 (by norm_num) (by norm_num)⟩

/-- The level loop of `start_grid_strategy` acts on the levels as a
pointwise map by `startLevelFun`. -/
lemma startLevels_fst (place : Side → ℚ → ℚ → Option Nat) (cp : ℚ) :
    ∀ lvls, (startLevels place cp lvls).1 = lvls.map (startLevelFun place cp) := by
  intro lvls
  induction lvls with
  | nil => rfl
  | cons l rest ih =>
    simp only [startLevels, startLevelFun, List.map_cons]
    by_cases hs : shouldPlaceLevel l cp
    · cases h : place l.side l.quantity l.price with
      | some oid => simp [hs, h, ih]
      | none => simp [hs, h, ih]
    · simp [hs, ih]

/-- The `active_orders += 1` increments performed by the level loop of
`start_grid_strategy` count exactly the levels that pass the placement
test and whose placement succeeds. -/
lemma startLevels_snd (place : Side → ℚ → ℚ → Option Nat) (cp : ℚ) :
    ∀ lvls, (startLevels place cp lvls).2 =
      ((lvls.countP fun l =>
          shouldPlaceLevel l cp && (place l.side l.quantity l.price).isSome : Nat) : Int) := by
  intro lvls
  induction lvls with
  | nil => rfl
  | cons l rest ih =>
    simp only [startLevels, List.countP_cons]
    by_cases hs : shouldPlaceLevel l cp
    · cases h : place l.side l.quantity l.price with
      | some oid => simp [hs, h, ih]
      | none => simp [hs, h, ih]
    · simp [hs, ih]

/-- C6: for every registered grid strategy, when every placement
succeeds, `start_grid_strategy` returns `True`, sets status `RUNNING`,
and transforms the levels pointwise: a level is marked `PLACED` with the
placement's order id exactly when it is not crossable at the current
price — `BUY` strictly below it or `SELL` strictly above it — and every
other level is left exactly as it was (in particular a `PENDING` level
stays `PENDING` with no order id).  The placement test agrees with that
side/price condition, and a level priced exactly at the current price
never passes it. -/
theorem grid_start_places_restable_levels (placeOk : Side → ℚ → ℚ → Nat)
    (cp : ℚ) (s : GridStrategy) :
    (start_grid_strategy (fun sd q pr => some (placeOk sd q pr)) cp s).2 = true ∧
    (start_grid_strategy (fun sd q pr => some (placeOk sd q pr)) cp s).1.status
      = "RUNNING" ∧
    (start_grid_strategy (fun sd q pr => some (placeOk sd q pr)) cp s).1.grid_levels
      = s.grid_levels.map (fun l =>
          if (l.side = Side.BUY ∧ l.price < cp) ∨ (l.side = Side.SELL ∧ cp < l.price)
          then { l with
                 order_id := some (placeOk l.side l.quantity l.price)
                 status := "PLACED" }
          else l) ∧
    (∀ l : GridLevel, shouldPlaceLevel l cp = true ↔
        ((l.side = Side.BUY ∧ l.price < cp) ∨ (l.side = Side.SELL ∧ cp < l.price))) ∧
    (∀ l : GridLevel, l.price = cp → shouldPlaceLevel l cp = false) := by
  have hiff' : ∀ l : GridLevel, shouldPlaceLevel l cp = true ↔
      ((l.side = Side.BUY ∧ l.price < cp) ∨ (l.side = Side.SELL ∧ cp < l.price)) := by
    intro l
    simp only [shouldPlaceLevel, Bool.or_eq_true, Bool.and_eq_true, beq_iff_eq,
      decide_eq_true_eq]
  refine ⟨rfl, rfl, ?_, hiff', ?_⟩
  · show (startLevels (fun sd q pr => some (placeOk sd q pr)) cp s.grid_levels).1 = _
    rw [startLevels_fst]
    apply List.map_congr_left
    intro l _
    by_cases hc : shouldPlaceLevel l cp
    · rw [startLevelFun, if_pos hc, if_pos ((hiff' l).1 hc)]
    · rw [startLevelFun, if_neg hc,
        if_neg (fun hp => hc ((hiff' l).2 hp))]
  · intro l hp
    cases hb : shouldPlaceLevel l cp
    · rfl
    · exfalso
      rcases (hiff' l).1 hb with ⟨_, hlt⟩ | ⟨_, hlt⟩
      · rw [hp] at hlt; exact lt_irrefl _ hlt
      · rw [hp] at hlt; exact lt_irrefl _ hlt

/-- Witness for C6: a two-level grid around current price 105, with the
BUY level below and the SELL level at exactly the current price. -/
theorem grid_start_places_restable_levels_witness :
    ((start_grid_strategy (fun _ _ _ => some 9) 105 sampleCreatedStrategy).2 = true ∧
     (start_grid_strategy (fun _ _ _ => some 9) 105 sampleCreatedStrategy).1.status
        = "RUNNING" ∧
     (start_grid_strategy (fun _ _ _ => some 9) 105 sampleCreatedStrategy).1.grid_levels
        = sampleCreatedStrategy.grid_levels.map (fun l =>
            if (l.side = Side.BUY ∧ l.price < 105) ∨ (l.side = Side.SELL ∧ 105 < l.price)
            then { l with
                   order_id := some 9
                   status := "PLACED" }
            else l)) ∧
    shouldPlaceLevel { price := 105, quantity := 1, side := Side.SELL } 105 = false := by
  have h := grid_start_places_restable_levels (fun _ _ _ => 9) 105 sampleCreatedStrategy
  exact ⟨⟨h.1, h.2.1, h.2.2.1⟩, h.2.2.2.2 _ rfl⟩

/-- C10: for every registered grid strategy, `start_grid_strategy` with
an arbitrary placement outcome per level still returns `True` and sets
status `RUNNING`; the levels are transformed pointwise by
`startLevelFun`, so a level whose placement raises (`place ... = none`)
is left exactly as it was — still `PENDING` with no order id if it was —
while placement is still attempted for every other level; and
`active_orders` grows by exactly the number of successful placements. -/
theorem grid_start_placement_failure_tolerant
    (place : Side → ℚ → ℚ → Option Nat) (cp : ℚ) (s : GridStrategy) :
    (start_grid_strategy place cp s).2 = true ∧
    (start_grid_strategy place cp s).1.status = "RUNNING" ∧
    (start_grid_strategy place cp s).1.grid_levels
      = s.grid_levels.map (startLevelFun place cp) ∧
    (∀ l ∈ s.grid_levels, place l.side l.quantity l.price = none →
        startLevelFun place cp l = l) ∧
    (start_grid_strategy place cp s).1.active_orders
      = s.active_orders +
        ((s.grid_levels.countP fun l =>
            shouldPlaceLevel l cp && (place l.side l.quantity l.price).isSome : Nat) : Int) := by
  refine ⟨rfl, rfl, ?_, ?_, ?_⟩
  · show (startLevels place cp s.grid_levels).1 = _
    rw [startLevels_fst]
  · intro l _ hnone
    rw [startLevelFun]
    by_cases hc : shouldPlaceLevel l cp
    · rw [if_pos hc, hnone]
    · rw [if_neg hc]
  · show s.active_orders + (startLevels place cp s.grid_levels).2 = _
    rw [startLevels_snd]

/-- Witness for C10: starting the sample two-level grid with a placer
that raises on BUY levels and succeeds on SELL levels. -/
theorem grid_start_placement_failure_tolerant_witness :
    ((start_grid_strategy
        (fun sd _ _ => if sd == Side.BUY then none else some 9) 105
        sampleCreatedStrategy).2 = true ∧
     (start_grid_strategy
        (fun sd _ _ => if sd == Side.BUY then none else some 9) 105
        sampleCreatedStrategy).1.status = "RUNNING" ∧
     (start_grid_strategy
        (fun sd _ _ => if sd == Side.BUY then none else some 9) 105
        sampleCreatedStrategy).1.grid_levels
       = sampleCreatedStrategy.grid_levels.map
           (startLevelFun (fun sd _ _ => if sd == Side.BUY then none else some 9) 105)) ∧
    startLevelFun (fun sd _ _ => if sd == Side.BUY then none else some 9) 105
        { price := 100, quantity := 1, side := Side.BUY }
      = { price := 100, quantity := 1, side := Side.BUY } ∧
    (start_grid_strategy
        (fun sd _ _ => if sd == Side.BUY then none else some 9) 105
        sampleCreatedStrategy).1.active_orders
      = sampleCreatedStrategy.active_orders + 1 := by
  have h := grid_start_placement_failure_tolerant
    (fun sd _ _ => if sd == Side.BUY then none else some 9) 105 sampleCreatedStrategy
  refine ⟨⟨h.1, h.2.1, h.2.2.1⟩, ?_, ?_⟩
  · exact h.2.2.2.1 { price := 100, quantity := 1, side := Side.BUY }
      (by decide) rfl
  · rw [h.2.2.2.2]; decide

/-- Each observed fill in a monitoring pass flips one `PLACED` level to
`FILLED` and contributes `-1` to the `active_orders` delta, so the count
of `PLACED` levels moves in lockstep with the counter. -/
lemma monitorPass_count (g : Nat → Except PyError String) :
    ∀ lvls, (countPlaced (monitorPass g lvls).levels : Int)
      = (countPlaced lvls : Int) + (monitorPass g lvls).activeDelta := by
  intro lvls
  induction lvls with
  | nil => rfl
  | cons l rest ih =>
    cases hb : (l.status == "PLACED" && truthyId l.order_id) with
    | false =>
      cases hpl : (l.status == "PLACED") with
      | false =>
        simp only [countPlaced, List.countP_cons] at ih ⊢
        simp [monitorPass, hb, hpl, ih]
      | true =>
        simp only [monitorPass]
        rw [hb]
        simp only [Bool.false_eq_true, if_false]
        simp only [countPlaced, List.countP_cons] at ih ⊢
        simp only [hpl, if_true]
        push_cast at ih ⊢
        omega
    | true =>
      have hpl : (l.status == "PLACED") = true := by
        have h := hb
        rw [Bool.and_eq_true] at h
        exact h.1
      cases hg : g (l.order_id.getD 0) with
      | error e =>
        simp [monitorPass, hb, hg, countPlaced]
      | ok os =>
        cases hos : (os == "FILLED") with
        | true =>
          simp only [monitorPass, hb, if_true, hg, hos]
          simp only [countPlaced, List.countP_cons] at ih ⊢
          simp only [hpl, if_true]
          have hf : (("FILLED" : String) == "PLACED") = false := by decide
          simp only [hf, if_false]
          push_cast at ih ⊢
          omega
        | false =>
          simp only [monitorPass, hb, if_true, hg, hos, Bool.false_eq_true, if_false]
          simp only [countPlaced, List.countP_cons] at ih ⊢
          simp only [hpl, if_true]
          push_cast at ih ⊢
          omega

/-- A monitoring pass never produces a `PLACED` level with an untruthy
order id: it only flips `PLACED` levels to `FILLED` and leaves every
other level unchanged. -/
lemma monitorPass_truthy (g : Nat → Except PyError String) :
    ∀ lvls, placedTruthy lvls → placedTruthy (monitorPass g lvls).levels := by
  intro lvls
  induction lvls with
  | nil => exact fun h => h
  | cons l rest ih =>
    intro h
    have hl : l.status = "PLACED" → truthyId l.order_id = true :=
      h l (List.mem_cons_self l rest)
    have hrest : placedTruthy rest :=
      fun x hx => h x (List.mem_cons_of_mem l hx)
    by_cases hb : (l.status == "PLACED" && truthyId l.order_id) = true
    · cases hg : g (l.order_id.getD 0) with
      | error e =>
        simpa [monitorPass, hb, hg] using h
      | ok os =>
        by_cases hos : (os == "FILLED") = true
        · simp only [monitorPass, hb, hg, hos, if_true, if_pos]
          intro x hx
          rcases List.mem_cons.1 hx with rfl | hx'
          · intro hfp
            exact absurd hfp (by simp)
          · exact ih hrest x hx'
        · simp only [monitorPass, hb, hg, hos, if_neg, Bool.not_eq_true]
          intro x hx
          rcases List.mem_cons.1 hx with rfl | hx'
          · exact hl
          · exact ih hrest x hx'
    · simp only [monitorPass, hb, if_neg, Bool.not_eq_true]
      intro x hx
      rcases List.mem_cons.1 hx with rfl | hx'
      · exact hl
      · exact ih hrest x hx'

/-- After the `stop_grid_strategy` cancellation loop no level is
`PLACED`, provided every `PLACED` level had a truthy order id. -/
lemma stopLevels_countPlaced :
    ∀ lvls, placedTruthy lvls → countPlaced (stopLevels lvls) = 0 := by
  intro lvls
  induction lvls with
  | nil => exact fun _ => rfl
  | cons l rest ih =>
    intro h
    have hl : l.status = "PLACED" → truthyId l.order_id = true :=
      h l (List.mem_cons_self l rest)
    have hrest : placedTruthy rest :=
      fun x hx => h x (List.mem_cons_of_mem l hx)
    cases hb : (l.status == "PLACED" && truthyId l.order_id) with
    | true =>
      simp only [stopLevels, hb, if_true]
      simp only [countPlaced, List.countP_cons] at ih ⊢
      have hc : (("CANCELLED" : String) == "PLACED") = false := by decide
      simp [hc, ih hrest]
    | false =>
      have hnp : (l.status == "PLACED") = false := by
        cases hpl : (l.status == "PLACED") with
        | false => rfl
        | true =>
          have := hl (by simpa using hpl)
          simp [hpl, this] at hb
      simp only [stopLevels, hb, Bool.false_eq_true, if_false]
      simp only [countPlaced, List.countP_cons] at ih ⊢
      simp [hnp, ih hrest]

/-- The `stop_grid_strategy` cancellation loop leaves a level list with
no `PLACED` level completely unchanged. -/
lemma stopLevels_of_no_placed :
    ∀ lvls, (∀ l ∈ lvls, l.status ≠ "PLACED") → stopLevels lvls = lvls := by
  intro lvls
  induction lvls with
  | nil => exact fun _ => rfl
  | cons l rest ih =>
    intro h
    have hnp : (l.status == "PLACED") = false := by
      have := h l (List.mem_cons_self l rest)
      simpa using this
    simp only [stopLevels, hnp, Bool.false_and, if_neg, Bool.not_eq_true]
    rw [ih (fun x hx => h x (List.mem_cons_of_mem l hx))]

/-- C7: the equality `active_orders = number of PLACED levels` is
established at creation (both are 0) and preserved by every operation:
`start` on a strategy with no `PLACED` level (as created) whose
placements return nonzero order ids — each successful placement marks a
level `PLACED` and increments the counter, and every placed level gets a
truthy order id; every monitoring pass — each observed fill marks its
level `FILLED` and decrements the counter (and placed levels keep truthy
ids); and `stop` — every `PLACED` level becomes `CANCELLED` and the
counter is set to 0. -/
theorem grid_active_order_count_invariant :
    (∀ (gridId symbol : String) (lo hi : ℚ) (n : Nat) (qty : ℚ)
       (s : GridStrategy),
       create_grid_strategy gridId symbol lo hi n qty = .ok s →
       s.active_orders = (countPlaced s.grid_levels : Int) ∧
       countPlaced s.grid_levels = 0) ∧
    (∀ (place : Side → ℚ → ℚ → Option Nat) (cp : ℚ) (s : GridStrategy),
       s.active_orders = (countPlaced s.grid_levels : Int) →
       (∀ l ∈ s.grid_levels, l.status ≠ "PLACED") →
       (∀ sd q pr oid, place sd q pr = some oid → oid ≠ 0) →
       ((start_grid_strategy place cp s).1.active_orders
          = (countPlaced (start_grid_strategy place cp s).1.grid_levels : Int) ∧
        placedTruthy (start_grid_strategy place cp s).1.grid_levels)) ∧
    (∀ (g : Nat → Except PyError String) (s : GridStrategy),
       s.active_orders = (countPlaced s.grid_levels : Int) →
       ((monitor_grid_step g s).active_orders
          = (countPlaced (monitor_grid_step g s).grid_levels : Int) ∧
        (placedTruthy s.grid_levels →
          placedTruthy (monitor_grid_step g s).grid_levels))) ∧
    (∀ s : GridStrategy, placedTruthy s.grid_levels →
       (stop_grid_strategy s).1.active_orders = 0 ∧
       countPlaced (stop_grid_strategy s).1.grid_levels = 0) := by
  refine ⟨?_, ?_, ?_, ?_⟩
  · intro gridId symbol lo hi n qty s h
    by_cases h2 : n < 2
    · simp [create_grid_strategy, h2] at h
    · by_cases h3 : lo ≥ hi
      · simp [create_grid_strategy, h2, h3] at h
      · simp only [create_grid_strategy, h2, if_false, h3, Except.ok.injEq] at h
        subst h
        have : countPlaced ((List.range n).map fun (i : Nat) =>
            ({ price := lo + (i : ℚ) * ((hi - lo) / ((n : ℚ) - 1)),
               quantity := qty / (n : ℚ),
               side := if i < n / 2 then Side.BUY else Side.SELL } : GridLevel))
            = 0 := by
          rw [countPlaced, List.countP_eq_zero]
          intro l hl
          rcases List.mem_map.1 hl with ⟨i, _, rfl⟩
          show ¬ (("PENDING" : String) == "PLACED") = true
          decide
        exact ⟨by simp [this], this⟩
  · intro place cp s hinv hnp hids
    have hmap : (start_grid_strategy place cp s).1.grid_levels
        = s.grid_levels.map (startLevelFun place cp) :=
      startLevels_fst place cp s.grid_levels
    have hz : countPlaced s.grid_levels = 0 := by
      simp only [countPlaced, List.countP_eq_zero]
      intro l hl
      simpa using hnp l hl
    have hcount : countPlaced (s.grid_levels.map (startLevelFun place cp))
        = s.grid_levels.countP
            (fun l => shouldPlaceLevel l cp && (place l.side l.quantity l.price).isSome) := by
      rw [countPlaced, List.countP_map]
      apply List.countP_congr
      intro l hl
      have hlnp : (l.status == "PLACED") = false := by
        simpa using hnp l hl
      cases hc : shouldPlaceLevel l cp with
      | false => simp [startLevelFun, hc, Function.comp, hlnp]
      | true =>
        cases hp : place l.side l.quantity l.price with
        | none => simp [startLevelFun, hc, hp, Function.comp, hlnp]
        | some oid => simp [startLevelFun, hc, hp, Function.comp]
    constructor
    · show s.active_orders + (startLevels place cp s.grid_levels).2 = _
      rw [startLevels_snd, hinv, hz, hmap, hcount]
      simp
    · rw [hmap]
      intro l' hl' hst
      rcases List.mem_map.1 hl' with ⟨l, hl, rfl⟩
      rw [startLevelFun] at hst ⊢
      cases hc : shouldPlaceLevel l cp with
      | false =>
        rw [hc] at hst
        exact absurd (hst : l.status = "PLACED") (hnp l hl)
      | true =>
        rw [hc] at hst
        cases hp : place l.side l.quantity l.price with
        | none =>
          rw [hp] at hst
          exact absurd (hst : l.status = "PLACED") (hnp l hl)
        | some oid =>
          show truthyId (some oid) = true
          simp only [truthyId, bne_iff_ne, ne_eq]
          exact hids _ _ _ _ hp
  · intro g s hinv
    refine ⟨?_, monitorPass_truthy g s.grid_levels⟩
    show s.active_orders + (monitorPass g s.grid_levels).activeDelta
        = (countPlaced (monitorPass g s.grid_levels).levels : Int)
    have := monitorPass_count g s.grid_levels
    rw [hinv]
    omega
  · intro s htr
    exact ⟨rfl, stopLevels_countPlaced s.grid_levels htr⟩

/-- Witness for C7, exercising all four conjuncts: a concrete 2-level
creation; a start with succeeding nonzero-id placements on the freshly
created sample strategy; a monitoring pass that reports order 9 filled;
and a stop of the resulting strategy. -/
theorem grid_active_order_count_invariant_witness :
    ((gridStrategyOf (create_grid_strategy "G" "X" 100 110 2 2)).active_orders
       = (countPlaced
           (gridStrategyOf (create_grid_strategy "G" "X" 100 110 2 2)).grid_levels : Int) ∧
     countPlaced (gridStrategyOf (create_grid_strategy "G" "X" 100 110 2 2)).grid_levels
       = 0) ∧
    ((start_grid_strategy (fun _ _ _ => some 9) 105 sampleCreatedStrategy).1.active_orders
       = (countPlaced
           (start_grid_strategy (fun _ _ _ => some 9) 105
             sampleCreatedStrategy).1.grid_levels : Int) ∧
     placedTruthy
       (start_grid_strategy (fun _ _ _ => some 9) 105
         sampleCreatedStrategy).1.grid_levels) ∧
    ((monitor_grid_step (fun _ => .ok "FILLED")
        (start_grid_strategy (fun _ _ _ => some 9) 105
          sampleCreatedStrategy).1).active_orders
       = (countPlaced
           (monitor_grid_step (fun _ => .ok "FILLED")
             (start_grid_strategy (fun _ _ _ => some 9) 105
               sampleCreatedStrategy).1).grid_levels : Int)) ∧
    ((stop_grid_strategy
        (start_grid_strategy (fun _ _ _ => some 9) 105
          sampleCreatedStrategy).1).1.active_orders = 0 ∧
     countPlaced
       (stop_grid_strategy
         (start_grid_strategy (fun _ _ _ => some 9) 105
           sampleCreatedStrategy).1).1.grid_levels = 0) := by
  have hc := grid_active_order_count_invariant.1 "G" "X" 100 110 2 2
    (gridStrategyOf (create_grid_strategy "G" "X" 100 110 2 2)) rfl
  have hs := grid_active_order_count_invariant.2.1 (fun _ _ _ => some 9) 105
    sampleCreatedStrategy (by decide) (by decide)
    (fun _ _ _ oid h => by
      have : oid = 9 := by simpa using h.symm
      omega)
  have hm := grid_active_order_count_invariant.2.2.1 (fun _ => .ok "FILLED")
    (start_grid_strategy (fun _ _ _ => some 9) 105 sampleCreatedStrategy).1
    hs.1
  have hst := grid_active_order_count_invariant.2.2.2
    (start_grid_strategy (fun _ _ _ => some 9) 105 sampleCreatedStrategy).1
    hs.2
  exact ⟨hc, hs, hm.1, hst⟩

/-- C8: stopping a grid strategy that is already `STOPPED` — so no level
is `PLACED`, and its counter satisfies the data-model invariant
`active_orders = count of PLACED levels` — returns `True` without
raising (`stop_grid_strategy` is a total function) and leaves the
strategy completely unchanged: stop is idempotent. -/
theorem grid_stop_idempotent (s : GridStrategy)
    (hst : s.status = "STOPPED")
    (hp : ∀ l ∈ s.grid_levels, l.status ≠ "PLACED")
    (hao : s.active_orders = (countPlaced s.grid_levels : Int)) :
    stop_grid_strategy s = (s, true) := by
  have hz : countPlaced s.grid_levels = 0 := by
    simp only [countPlaced, List.countP_eq_zero]
    intro l hl
    simpa using hp l hl
  have hlv : stopLevels s.grid_levels = s.grid_levels :=
    stopLevels_of_no_placed s.grid_levels hp
  have hao0 : s.active_orders = 0 := by rw [hao, hz]; rfl
  rw [stop_grid_strategy, hlv]
  cases s
  simp_all

/-- Witness for C8 at a concrete stopped strategy. -/
theorem grid_stop_idempotent_witness :
    (stoppedStrategy.status = "STOPPED" ∧
     (∀ l ∈ stoppedStrategy.grid_levels, l.status ≠ "PLACED") ∧
     stoppedStrategy.active_orders = (countPlaced stoppedStrategy.grid_levels : Int)) ∧
    stop_grid_strategy stoppedStrategy = (stoppedStrategy, true) :=
  ⟨⟨rfl, by decide, by decide⟩,
   grid_stop_idempotent stoppedStrategy rfl (by decide) (by decide)⟩

/-- C9, counterexample: when the follow-up status query carries neither
an `avgPrice` nor a `price` field, the returned `OrderResult.price` is
`0` — the claim says it is left null (`none`), but it is `some 0`, a
zero sentinel. -/
theorem market_price_zero_not_null :
    (market_place_order_result pendingDetails).price = some 0 ∧
    (market_place_order_result pendingDetails).price ≠ none := by
  exact ⟨rfl, by simp [market_place_order_result]⟩

/-- C9, amended: the returned price is the realized average price when
that is present and nonzero; otherwise it falls back to the raw order
price field (defaulting to 0 when the field is absent); the price is
never null — when both fields are unavailable it is `0`, a zero
sentinel, not `none`. -/
theorem market_price_fallback (od : OrderDetails) :
    (∀ a : ℚ, od.avgPrice = some a → a ≠ 0 →
       (market_place_order_result od).price = some a) ∧
    ((od.avgPrice = none ∨ od.avgPrice = some 0) →
       (market_place_order_result od).price = some (od.price.getD 0)) ∧
    ((market_place_order_result od).price).isSome = true := by
  refine ⟨?_, ?_, rfl⟩
  · intro a ha hne
    simp [market_place_order_result, marketExecutionPrice, ha, hne]
  · rintro (h | h) <;> simp [market_place_order_result, marketExecutionPrice, h]

/-- Witness for C9's amended statement: the fallback on a priceless
reply and the realized average price on a filled reply. -/
theorem market_price_fallback_witness :
    ((pendingDetails.avgPrice = none ∨ pendingDetails.avgPrice = some 0) ∧
     (market_place_order_result pendingDetails).price
       = some (pendingDetails.price.getD 0)) ∧
    (filledDetails.avgPrice = some 101 ∧ (101 : ℚ) ≠ 0 ∧
     (market_place_order_result filledDetails).price = some 101) ∧
    ((market_place_order_result pendingDetails).price).isSome = true :=
  ⟨⟨Or.inl rfl, (market_price_fallback pendingDetails).2.1 (Or.inl rfl)⟩,
   ⟨rfl, by norm_num,
    (market_price_fallback filledDetails).1 101 rfl (by norm_num)⟩,
   (market_price_fallback pendingDetails).2.2⟩

end TradingBot
